import Mathlib

set_option maxRecDepth 40000

/-!
Verification development for the knot-troubleshooting payment-flow pipeline:
a shallow embedding of the HAR normalizer (`app/core/parse_har.py`), the log
normalizer (`app/core/parse_logs.py`), the correlator
(`app/web/streamlit_app.py`, `analyze_payment_flows`) and the pattern
detector (`app/core/pattern_detector.py`), together with theorems about the
embedded functions.

Python strings are modelled as `List Char`; the Python string operations the
source uses (`in`, `startswith`, `strip`, `split`, `replace`, `join`,
`lower`, `splitlines`) are defined below as executable Lean functions.
-/

/-- Python strings are modelled as lists of characters. -/
abbrev PyStr := List Char

/-- String literals of the model, written with ordinary Lean string syntax. -/
def lit (s : String) : PyStr := s.toList

/-- Python `needle in haystack`: contiguous-substring test. -/
def pyIn (needle : PyStr) : PyStr → Bool
  | [] => needle.isEmpty
  | c :: rest => needle.isPrefixOf (c :: rest) || pyIn needle rest

/-- Python `s.startswith(p)`. -/
def pyStartsWith (p s : PyStr) : Bool := p.isPrefixOf s

/-- Python whitespace test, restricted to the ASCII whitespace characters. -/
def pyIsSpace (c : Char) : Bool :=
  c == ' ' || c == '\t' || c == '\n' || c == '\r' || c == '\x0b' || c == '\x0c'

/-- Strip characters satisfying `p` from both ends of a list. -/
def stripWhile (p : Char → Bool) (s : PyStr) : PyStr :=
  ((s.dropWhile p).reverse.dropWhile p).reverse

/-- Python `s.strip()`. -/
def pyStrip (s : PyStr) : PyStr := stripWhile pyIsSpace s

/-- Python `s.strip('/')`. -/
def pyStripSlash (s : PyStr) : PyStr := stripWhile (fun c => c == '/') s

/-- Worker for `pySplit`, structurally recursive on a fuel argument that is
kept at least as large as the remaining input. -/
def pySplitGo (sep : PyStr) : Nat → PyStr → PyStr → List PyStr
  | _, [], acc => [acc.reverse]
  | 0, s, acc => [acc.reverse ++ s]
  | fuel + 1, c :: rest, acc =>
      if sep.isPrefixOf (c :: rest) then
        acc.reverse :: pySplitGo sep fuel (List.drop (sep.length - 1) rest) []
      else
        pySplitGo sep fuel rest (c :: acc)

/-- Python `s.split(sep)` for a non-empty separator: empty pieces are kept. -/
def pySplit (sep s : PyStr) : List PyStr := pySplitGo sep s.length s []

/-- Worker for `pyReplace`, fueled like `pySplitGo`. -/
def pyReplaceGo (old new : PyStr) : Nat → PyStr → PyStr
  | _, [] => []
  | 0, s => s
  | fuel + 1, c :: rest =>
      if old.isPrefixOf (c :: rest) then
        new ++ pyReplaceGo old new fuel (List.drop (old.length - 1) rest)
      else
        c :: pyReplaceGo old new fuel rest

/-- Python `s.replace(old, new)` for a non-empty `old`: replaces every
occurrence, scanning left to right. -/
def pyReplace (old new s : PyStr) : PyStr := pyReplaceGo old new s.length s

/-- Python `sep.join(pieces)`. -/
def pyJoin (sep : PyStr) : List PyStr → PyStr
  | [] => []
  | [x] => x
  | x :: xs => x ++ sep ++ pyJoin sep xs

/-- ASCII lower-casing of one character (the header names the redaction rule
compares are ASCII). -/
def asciiLower (c : Char) : Char :=
  if 'A' ≤ c && c ≤ 'Z' then Char.ofNat (c.toNat + 32) else c

/-- Python `s.lower()`, restricted to ASCII case folding. -/
def pyLower (s : PyStr) : PyStr := s.map asciiLower

/-- Python `s.splitlines()` for newline-only line endings: split on the
newline character and drop the trailing empty piece a final newline leaves. -/
def pySplitlines (s : PyStr) : List PyStr :=
  let ps := pySplit ['\n'] s
  match ps.reverse with
  | [] :: rest => rest.reverse
  | _ => ps

/-- Decimal digit character for a value below ten. -/
def digitChar (n : Nat) : Char :=
  match n with
  | 0 => '0' | 1 => '1' | 2 => '2' | 3 => '3' | 4 => '4'
  | 5 => '5' | 6 => '6' | 7 => '7' | 8 => '8' | _ => '9'

/-- Decimal digits of a natural number, fueled for structural recursion. -/
def natDigitsGo : Nat → Nat → PyStr
  | 0, _ => []
  | fuel + 1, n => if n < 10 then [digitChar n] else natDigitsGo fuel (n / 10) ++ [digitChar (n % 10)]

/-- Python `str(n)` for an integer. -/
def intToStr (n : Int) : PyStr :=
  match n with
  | Int.ofNat m => natDigitsGo (m + 1) m
  | Int.negSucc m => '-' :: natDigitsGo (m + 2) (m + 1)

example : pyIn (lit "Task URL:") (lit "x Task URL: y") = true := by decide
example : pyIn (lit "====") (lit "line") = false := by decide
example : pyStrip (lit "  ab ") = lit "ab" := by decide
example : pySplit (lit ".") (lit "a.b.c") = [lit "a", lit "b", lit "c"] := by decide
example : (pySplit (lit "for ") (lit "==== Logging started for test ====")).getLastD [] = lit "test ====" := by decide
example : pyStrip (pyReplace (lit " ====") [] (lit "test ====")) = lit "test" := by decide
example : pyJoin (lit " -> ") [lit "a", lit "b"] = lit "a -> b" := by decide
example : pyLower (lit "X-CSRF-Token") = lit "x-csrf-token" := by decide
example : pySplitlines (lit "a\nb\n") = [lit "a", lit "b"] := by decide
example : intToStr 200 = lit "200" := by decide
example : intToStr (-42) = lit "-42" := by decide

/-!
Log normalizer (`app/core/parse_logs.py`). The JSON-array input branch
(`convert_json_to_traditional`) is not modelled: every claim below is about
the line scanner, which runs over plain line-oriented text.
-/

/-- Structured traceback summary, `parse_error_trace` in `parse_logs.py`. -/
structure ErrorDetails where
  type : Option PyStr
  message : Option PyStr
  location : Option PyStr
  full_trace : List PyStr
deriving DecidableEq

/-- One execution record produced by the log normalizer. -/
structure LogEntry where
  file_id : PyStr
  service : PyStr
  task_url : Option PyStr
  steps : List PyStr
  status : PyStr
  error_message : Option PyStr
  error_details : Option ErrorDetails
deriving DecidableEq

/-- `parse_error_trace(trace_lines)`: extract type, message and location from
the captured traceback lines. -/
def parse_error_trace (trace_lines : List PyStr) : ErrorDetails :=
  { type := trace_lines.getLast?,
    message := trace_lines.reverse.find?
      (fun l => pyIn (lit "Error:") l || pyIn (lit "Exception:") l),
    location := trace_lines.find? (fun l => pyIn (lit "File") l),
    full_trace := trace_lines }

/-- State of the line scanner in `parse_log_files`: accumulated output,
currently open entry, traceback buffer, and the in-traceback flag. -/
structure ScanState where
  results : List LogEntry
  current : Option LogEntry
  error_trace : List PyStr
  in_traceback : Bool
deriving DecidableEq

def startedMarker : PyStr := lit "==== Logging started for"
def endedMarker : PyStr := lit "==== Logging ended"
def taskUrlMarker : PyStr := lit "Task URL:"
def tracebackMarker : PyStr := lit "Traceback"
def excPrefix1 : PyStr := lit "commons.exceptions"
def excPrefix2 : PyStr := lit "Exception"
def eqMarker : PyStr := lit "===="

/-- The fresh entry opened by a start-marker line: `file_id` is the filename
stem before the first dot, `service` is the text after `"for "` with the
trailing `" ===="` removed and whitespace stripped. -/
def mkStartEntry (filename line : PyStr) : LogEntry :=
  { file_id := (pySplit (lit ".") filename).headD [],
    service := pyStrip (pyReplace (lit " ====") [] ((pySplit (lit "for ") line).getLastD [])),
    task_url := none,
    steps := [],
    status := lit "success",
    error_message := none,
    error_details := none }

/-- One iteration of the scanner loop in `parse_log_files` (lines 94-129 of
`parse_logs.py`): the raw line is stripped, then the branch chain runs in
source order — start marker, then (with an entry open) task-URL marker,
traceback marker, in-traceback capture, ordinary step line, end marker. -/
def scanStep (filename : PyStr) (st : ScanState) (rawLine : PyStr) : ScanState :=
  let line := pyStrip rawLine
  if pyIn startedMarker line then
    { st with current := some (mkStartEntry filename line) }
  else
    match st.current with
    | none => st
    | some cur =>
      if pyIn taskUrlMarker line then
        { st with current := some { cur with task_url := some (pyStrip (pyReplace taskUrlMarker [] line)) } }
      else if pyIn tracebackMarker line then
        { st with in_traceback := true, error_trace := [line] }
      else if st.in_traceback then
        let tr := st.error_trace ++ [line]
        if pyStartsWith excPrefix1 line || pyStartsWith excPrefix2 line then
          { st with
            current := some { cur with
                               error_message := some line
                               error_details := some (parse_error_trace tr)
                               status := lit "failed" }
            error_trace := tr
            in_traceback := false }
        else
          { st with error_trace := tr }
      else if !st.in_traceback && !line.isEmpty && !pyStartsWith eqMarker line then
        { st with current := some { cur with steps := cur.steps ++ [line] } }
      else if pyIn endedMarker line then
        { st with results := st.results ++ [cur], current := none }
      else
        st

/-- Scan the lines of one file, starting from already-accumulated results;
`current`, the trace buffer and the in-traceback flag are reset per file,
mirroring their initialization inside the per-file loop. -/
def parseOneLog (filename : PyStr) (lines : List PyStr) (acc : List LogEntry) : List LogEntry :=
  (lines.foldl (scanStep filename) { results := acc, current := none, error_trace := [], in_traceback := false }).results

/-- `parse_log_files` on plain-text files, given as (filename, content)
pairs: results accumulate across files in input order. -/
def parse_log_files (files : List (PyStr × PyStr)) : List LogEntry :=
  files.foldl (fun acc fc => parseOneLog fc.1 (pySplitlines fc.2) acc) []

example :
    (parse_log_files [(lit "test.log", lit "==== Logging started for test_service ====\nTask URL: https://example.com/task/1\nstep one\nTraceback (most recent call last):\nFile \"main.py\", line 10\nException: boom\n==== Logging ended ====")]).map
      (fun e => ((e.file_id, e.service, e.task_url), (e.steps, e.status, e.error_message))) =
    [((lit "test", lit "test_service", some (lit "https://example.com/task/1")),
      ([lit "step one"], lit "failed", some (lit "Exception: boom")))] := by decide

/-!
HAR normalizer (`app/core/parse_har.py`). Input files are modelled after
`json.loads` has run: a file is either unparseable (skipped whole) or a list
of raw entries whose `request`, `response` and `timings` members may be
missing (a missing member raises `KeyError` in the source and the entry is
skipped). Numeric JSON values are modelled as integers; the claims below do
not exercise fractional values.
-/

/-- A value found under `timings.total`: the source keeps it only when it is
numeric (`isinstance(response_time, (int, float))`). -/
inductive TimingVal where
  | num (n : Int)
  | nonNumeric
deriving DecidableEq

structure RawHeader where
  name : PyStr
  value : PyStr
deriving DecidableEq

structure RawRequest where
  url : Option PyStr
  method : Option PyStr
  headers : List RawHeader
deriving DecidableEq

structure RawResponse where
  status : Option Int
  statusText : Option PyStr
  redirectURL : Option PyStr
  bodySize : Option Int
deriving DecidableEq

structure RawTimings where
  total : Option TimingVal
deriving DecidableEq

structure RawEntry where
  request : Option RawRequest
  response : Option RawResponse
  timings : Option RawTimings
deriving DecidableEq

/-- One HAR input file: `parsed` is `none` when the file is unreadable or not
valid JSON, in which case the source logs and skips the file. -/
structure HarFile where
  filename : PyStr
  parsed : Option (List RawEntry)
deriving DecidableEq

/-- One normalized HTTP transaction, the persisted canonical HAR record. -/
structure HarEntry where
  file_id : PyStr
  url : PyStr
  method : PyStr
  status_code : Option Int
  response_time : Option Int
  response_size : Int
  request_headers : List (PyStr × PyStr)
  error_message : Option PyStr
deriving DecidableEq

/-- The fixed sensitive-header set of `sanitize_header_value`. -/
def sensitive_headers : List PyStr := [lit "cookie", lit "authorization", lit "x-csrf-token"]

/-- `sanitize_header_value(name, value)`: redact values whose header name
case-insensitively matches the sensitive set. -/
def sanitize_header_value (name value : PyStr) : PyStr :=
  if sensitive_headers.contains (pyLower name) then lit "[REDACTED]" else value

/-- Insert a key into a Python dict modelled as an association list: an
existing key keeps its position and gets the new value, a new key is
appended. -/
def dictInsert (k v : PyStr) : List (PyStr × PyStr) → List (PyStr × PyStr)
  | [] => [(k, v)]
  | (k', v') :: rest => if k = k' then (k', v) :: rest else (k', v') :: dictInsert k v rest

/-- The header dict comprehension of `parse_har_files`:
`{h["name"]: sanitize_header_value(h["name"], h["value"]) for h in headers}`. -/
def buildHeaders (hs : List RawHeader) : List (PyStr × PyStr) :=
  hs.foldl (fun d h => dictInsert h.name (sanitize_header_value h.name h.value) d) []

/-- Per-entry body of the `parse_har_files` loop: `none` models the
`KeyError` path (entry skipped) for a missing request/response/timings. -/
def processHarEntry (file_id : PyStr) (e : RawEntry) : Option HarEntry :=
  match e.request, e.response, e.timings with
  | some request, some response, some timings =>
    let response_time : Option Int :=
      match timings.total with
      | some (TimingVal.num n) => some n
      | _ => none
    let headers := buildHeaders request.headers
    let status_code := response.status
    let error_message : Option PyStr :=
      match status_code with
      | some sc =>
        if sc ≥ 400 then
          some (lit "HTTP " ++ intToStr sc ++ lit ": " ++ (response.statusText.getD (lit "Error")))
        else if sc = 302 then
          some (lit "Redirect to: " ++ (response.redirectURL.getD (lit "unknown")))
        else none
      | none => none
    some { file_id := file_id
           url := request.url.getD []
           method := request.method.getD []
           status_code := status_code
           response_time := response_time
           response_size := response.bodySize.getD 0
           request_headers := headers
           error_message := error_message }
  | _, _, _ => none

/-- The persisted canonical HAR store (`data/processed/parsed_har.json`). -/
structure HarStore where
  content : Option (List HarEntry)
deriving DecidableEq

/-- The `results` list accumulated by the file loop of `parse_har_files`:
malformed files and malformed entries are skipped, everything else is
appended in file-then-entry order. -/
def harResults (files : List HarFile) : List HarEntry :=
  files.foldl (fun acc f =>
    match f.parsed with
    | none => acc
    | some entries =>
        acc ++ entries.filterMap (processHarEntry ((pySplit (lit ".") f.filename).headD []))) []

/-- `parse_har_files`: accumulate entries over the input files, then persist
the accumulated list over the prior store only when it is non-empty; return
the list and the new store. -/
def parse_har_files (files : List HarFile) (prior : HarStore) : List HarEntry × HarStore :=
  (harResults files,
   if (harResults files).isEmpty then prior else { content := some (harResults files) })

example :
    (processHarEntry (lit "f1")
      { request := some { url := some (lit "https://x/a"), method := some (lit "GET"),
                          headers := [{ name := lit "Cookie", value := lit "secret" },
                                      { name := lit "Accept", value := lit "text/html" }] }
        response := some { status := some 404, statusText := some (lit "Not Found"),
                           redirectURL := none, bodySize := some 12 }
        timings := some { total := some (TimingVal.num 7) } }).map
      (fun e => (e.request_headers, e.error_message, e.response_time)) =
    some ([(lit "Cookie", lit "[REDACTED]"), (lit "Accept", lit "text/html")],
          some (lit "HTTP 404: Not Found"), some 7) := by decide

/-!
Route decomposition (`get_route_sequence` in `parse_har.py`) and the
correlator (`analyze_payment_flows` in `app/web/streamlit_app.py`). The
correlator runs over the persisted canonical records, whose key sets are
exactly the `HarEntry` and `LogEntry` fields above.
-/

/-- Path component of `urlparse` for URLs without query or fragment: when the
URL has a `"://"` scheme separator the path starts at the first slash after
the authority (empty when there is none); otherwise the whole string is the
path. -/
def urlparsePath (url : PyStr) : PyStr :=
  if pyIn (lit "://") url then
    (pyJoin (lit "://") (pySplit (lit "://") url).tail).dropWhile (fun c => !(c == '/'))
  else url

structure RouteSeq where
  base : PyStr
  full_path : PyStr
  depth : Nat
deriving DecidableEq

/-- `get_route_sequence(url)`: split the URL path on `/`, drop empty
segments; `base` is the first segment or `"root"`, `full_path` rejoins the
segments, `depth` counts them. -/
def get_route_sequence (url : PyStr) : RouteSeq :=
  let path_parts := (pySplit (lit "/") (pyStripSlash (urlparsePath url))).filter (fun p => !p.isEmpty)
  { base := path_parts.headD (lit "root"),
    full_path := pyJoin (lit "/") path_parts,
    depth := path_parts.length }

/-- One element of the `api_sequence` list built inside
`analyze_payment_flows`. The persisted HarEntry schema has no `base_route`,
`full_path` or `step_number` key, so `entry.get('base_route', 'unknown')` and
`entry.get('full_path', 'unknown')` always take their defaults; the
`status_code` key is present and its (possibly null) value is used as-is. -/
structure ApiStep where
  route : PyStr
  path : PyStr
  status : Option Int
  method : PyStr
deriving DecidableEq

def mkApiStep (e : HarEntry) : ApiStep :=
  { route := lit "unknown",
    path := lit "unknown",
    status := e.status_code,
    method := e.method }

/-- Rendering of the `status` field inside the `f-string`
`"{route}({status})"`: a null `status_code` prints as `None`. -/
def statusRepr : Option Int → PyStr
  | some n => intToStr n
  | none => lit "None"

/-- One flow summary row of the data frame `analyze_payment_flows` returns. -/
structure FlowAnalysis where
  file_id : PyStr
  status : PyStr
  error_message : Option PyStr
  api_calls : Nat
  total_response_size : Int
  steps_completed : Nat
  flow_sequence : PyStr
  detailed_flow : PyStr
  flow_status : PyStr
deriving DecidableEq

/-- `analyze_payment_flows(har_data, log_data)`: group HAR entries by
`file_id` (grouping preserves the input order within each file, and the sort
by the absent `step_number` key compares only the default `0`, so Python
stable sort leaves the order unchanged), then emit one summary per log
entry. -/
def analyze_payment_flows (har_data : List HarEntry) (log_data : List LogEntry) : List FlowAnalysis :=
  log_data.map (fun log =>
    let har_entries := har_data.filter (fun e => e.file_id = log.file_id)
    let api_sequence := har_entries.map mkApiStep
    let status0 := log.status
    let status := if status0 = lit "success" || status0 = lit "failed" || status0 = lit "unknown"
                  then status0 else lit "unknown"
    { file_id := log.file_id
      status := status
      error_message := log.error_message
      api_calls := har_entries.length
      total_response_size := (har_entries.map (fun e => e.response_size)).sum
      steps_completed := log.steps.length
      flow_sequence := pyJoin (lit " -> ") (api_sequence.map (fun s => s.route))
      detailed_flow := pyJoin (lit " -> ") (api_sequence.map (fun s => s.path))
      flow_status := pyJoin (lit " -> ")
        (api_sequence.map (fun s => s.route ++ lit "(" ++ statusRepr s.status ++ lit ")")) })

example : get_route_sequence (lit "https://example.com/api/v1/pay") =
    { base := lit "api", full_path := lit "api/v1/pay", depth := 3 } := by decide
example : get_route_sequence (lit "https://example.com") =
    { base := lit "root", full_path := [], depth := 0 } := by decide

/-!
Pattern detector (`app/core/pattern_detector.py`). `FailurePatternDetector`
is modelled as functions over the raw har/log lists, with the constructor
filtering applied first. Python `set(...)` collections are modelled as
first-occurrence deduplicated lists (`List.dedup`); the claims depend only on
membership and absence of duplicates. The `api` rule compares
`entry.get('status_code', 0) >= 400`, which raises `TypeError` when the
persisted `status_code` value is null, so that rule (and everything that
invokes it) is `Option`-valued, `none` modelling the raised exception.
-/

structure FailurePattern where
  type : PyStr
  description : PyStr
  severity : PyStr
  frequency : Nat
  affected_files : List PyStr
  error_messages : List PyStr
  recommendation : PyStr
deriving DecidableEq

/-- Constructor filtering: `self.log_data`, the failed log entries. -/
def detectorLogData (log_data : List LogEntry) : List LogEntry :=
  log_data.filter (fun l => l.status = lit "failed")

/-- Constructor filtering: `self.har_data`, the HAR entries whose `file_id`
is among the failed log file ids. -/
def detectorHarData (har_data : List HarEntry) (log_data : List LogEntry) : List HarEntry :=
  har_data.filter (fun h => (detectorLogData log_data).any (fun l => l.file_id = h.file_id))

def authIndicators : List PyStr :=
  [lit "cookies required", lit "Valid cookies", lit "Cookies sanitized", lit "session"]

def verificationIndicators : List PyStr :=
  [lit "Card is not reflected", lit "card is not reflected",
   lit "Card verification failed", lit "Update card error"]

/-- The `steps_str` of the auth and verification rules:
`' '.join(str(step) for step in steps)`. -/
def stepsJoined (l : LogEntry) : PyStr := pyJoin (lit " ") l.steps

/-- The generator filter `... for f in xs if f['error_message']` used when the
rules build their `error_messages` sets: Python truthiness keeps a message
only when it is neither null nor the empty string. -/
def truthyMessage (m : Option PyStr) : Option PyStr :=
  match m with
  | some s => if s.isEmpty then none else some s
  | none => none

/-- The `auth_failures` list collected by `_detect_auth_failures`: the log
entries whose joined steps string contains one of the auth indicators. -/
def auth_failures (log_data : List LogEntry) : List LogEntry :=
  log_data.filter (fun l => authIndicators.any (fun ind => pyIn ind (stepsJoined l)))

/-- `_detect_auth_failures` over the already-filtered failed log entries. -/
def detect_auth_failures (log_data : List LogEntry) : List FailurePattern :=
  if (auth_failures log_data).isEmpty then []
  else [{ type := lit "cookie_session_failure"
          description := lit "Authentication failures due to cookie/session issues"
          severity := lit "high"
          frequency := (auth_failures log_data).length
          affected_files := (auth_failures log_data).map (fun f => f.file_id)
          error_messages := ((auth_failures log_data).filterMap (fun f => truthyMessage f.error_message)).dedup
          recommendation := lit "Review session management and cookie handling process" }]

/-- `_detect_verification_failures` over the failed log entries. -/
def detect_verification_failures (log_data : List LogEntry) : List FailurePattern :=
  let verification_failures := log_data.filter
    (fun l => verificationIndicators.any (fun ind => pyIn ind (stepsJoined l)))
  if verification_failures.isEmpty then []
  else [{ type := lit "card_verification_failure"
          description := lit "Card verification or reflection failures"
          severity := lit "high"
          frequency := verification_failures.length
          affected_files := verification_failures.map (fun f => f.file_id)
          error_messages := (verification_failures.filterMap (fun f => truthyMessage f.error_message)).dedup
          recommendation := lit "Implement robust card verification checks and retry mechanism" }]

/-- `_detect_api_failures` over the already-filtered HAR entries: `none`
models the `TypeError` raised by comparing a null `status_code` with 400. -/
def detect_api_failures (har_data : List HarEntry) : Option (List FailurePattern) :=
  if har_data.all (fun e => e.status_code.isSome) then
    let failures := har_data.filter (fun e => e.status_code.getD 0 ≥ 400)
    let f404 := failures.filter (fun e => e.status_code = some 404)
    let f500 := failures.filter (fun e => e.status_code = some 500)
    let p404 : List FailurePattern :=
      if f404.isEmpty then []
      else [{ type := lit "endpoint_not_found"
              description := lit "API endpoints returning 404 errors"
              severity := lit "high"
              frequency := f404.length
              affected_files := (f404.map (fun f => f.file_id)).dedup
              error_messages := (f404.filterMap (fun f => truthyMessage f.error_message)).dedup
              recommendation := lit "Verify API endpoint URLs and routing configuration" }]
    let p500 : List FailurePattern :=
      if f500.isEmpty then []
      else [{ type := lit "server_error"
              description := lit "Internal server errors in API responses"
              severity := lit "high"
              frequency := f500.length
              affected_files := (f500.map (fun f => f.file_id)).dedup
              error_messages := (f500.filterMap (fun f => truthyMessage f.error_message)).dedup
              recommendation := lit "Investigate server-side error logs and exception handling" }]
    some (p404 ++ p500)
  else none

/-- The category-keyed dict returned by `detect_failure_patterns`; its keys
are the fixed strings `authentication`, `api`, `verification`. -/
structure DetectedPatterns where
  authentication : List FailurePattern
  api : List FailurePattern
  verification : List FailurePattern
deriving DecidableEq

/-- `detect_failure_patterns` on raw inputs: constructor filtering followed
by the three rules. -/
def detect_failure_patterns (har_data : List HarEntry) (log_data : List LogEntry) :
    Option DetectedPatterns :=
  match detect_api_failures (detectorHarData har_data log_data) with
  | none => none
  | some api =>
      some { authentication := detect_auth_failures (detectorLogData log_data)
             api := api
             verification := detect_verification_failures (detectorLogData log_data) }

/-- The summary dict of `generate_summary`; `pattern_distribution` is a dict
with the three fixed category keys, modelled as three counts. -/
structure PatternSummary where
  total_failures : Nat
  dist_authentication : Nat
  dist_api : Nat
  dist_verification : Nat
  patterns : DetectedPatterns
deriving DecidableEq

/-- `generate_summary` on raw inputs. -/
def generate_summary (har_data : List HarEntry) (log_data : List LogEntry) :
    Option PatternSummary :=
  match detect_failure_patterns har_data log_data with
  | none => none
  | some ps =>
      some { total_failures := (detectorLogData log_data).length
             dist_authentication := ps.authentication.length
             dist_api := ps.api.length
             dist_verification := ps.verification.length
             patterns := ps }

/-!
Concrete inputs used by the claim theorems below.
-/

/-- Scanner state at the top of the per-file loop. -/
def scanInit : ScanState :=
  { results := [], current := none, error_trace := [], in_traceback := false }

/-- The seven-line round-trip input of the spec (section 8, property 4). -/
def c5Content : PyStr :=
  lit "==== Logging started for test_service ====\nTask URL: https://example.com/task/1\nstep one\nTraceback (most recent call last):\nFile \"main.py\", line 10\nException: boom\n==== Logging ended ===="

/-- C5: on the seven-line round-trip input the log normalizer yields exactly
one LogEntry with service `test_service`, task_url
`https://example.com/task/1`, steps `["step one"]`, status `failed` and
error_message `Exception: boom`. -/
theorem C5_log_round_trip :
    (parse_log_files [(lit "test.log", c5Content)]).map
      (fun e => ((e.service, e.task_url, e.steps), (e.status, e.error_message))) =
    [((lit "test_service", some (lit "https://example.com/task/1"), [lit "step one"]),
      (lit "failed", some (lit "Exception: boom")))] := by decide

/-- A persisted HarEntry whose URL has the route base segment `api`. -/
def c1HarEntry : HarEntry :=
  { file_id := lit "f1", url := lit "https://example.com/api/v1/pay",
    method := lit "GET", status_code := some 200, response_time := none,
    response_size := 0, request_headers := [], error_message := none }

def c1LogEntry : LogEntry :=
  { file_id := lit "f1", service := lit "svc", task_url := none, steps := [],
    status := lit "success", error_message := none, error_details := none }

/-- C1: the correlator reads the `base_route` and `full_path` keys, which the
persisted HarEntry schema never contains, so for every persisted input the
three sequence strings join the literal `unknown` instead of the
route decomposition of the URL: here the flow summary for a HarEntry with URL
`https://example.com/api/v1/pay` carries `unknown`, `unknown` and
`unknown(200)`, while `get_route_sequence` on that URL yields base `api` and
full path `api/v1/pay` as the claim describes. -/
theorem C1_flow_strings_ignore_routes :
    ((analyze_payment_flows [c1HarEntry] [c1LogEntry]).map
      (fun f => (f.flow_sequence, f.detailed_flow, f.flow_status)) =
      [(lit "unknown", lit "unknown", lit "unknown(200)")]) ∧
    get_route_sequence c1HarEntry.url =
      { base := lit "api", full_path := lit "api/v1/pay", depth := 3 } := by decide

def c2Line1 : PyStr := lit "==== Logging started for svc ===="
def c2Line2 : PyStr := lit "x ==== Logging ended ===="
def c2St1 : ScanState := scanStep (lit "t.log") scanInit c2Line1

/-- C2: counterexample — in the OPEN, not-in-traceback state a line that
contains the end marker but does not start with `====` does not finalize the
entry; it is appended to `steps` and the entry stays open. -/
theorem C2_counterexample :
    c2St1.current.isSome = true ∧ c2St1.in_traceback = false ∧
    pyIn endedMarker c2Line2 = true ∧ pyStartsWith eqMarker c2Line2 = false ∧
    (scanStep (lit "t.log") c2St1 c2Line2).results = [] ∧
    (scanStep (lit "t.log") c2St1 c2Line2).current =
      some { mkStartEntry (lit "t.log") c2Line1 with steps := [c2Line2] } := by decide

def c3Line2 : PyStr := lit "Traceback (most recent call last):"
def c3St2 : ScanState :=
  List.foldl (scanStep (lit "t.log")) scanInit [c2Line1, c3Line2]
def c3Line3 : PyStr := lit "Task URL: http://x"

/-- C3: counterexample — in the OPEN, in-traceback state a line containing
`Task URL:` is not appended to the trace buffer; it sets `task_url`
instead. -/
theorem C3_counterexample :
    c3St2.in_traceback = true ∧ c3St2.current.isSome = true ∧
    c3St2.error_trace = [c3Line2] ∧
    (scanStep (lit "t.log") c3St2 c3Line3).error_trace = c3St2.error_trace ∧
    ((scanStep (lit "t.log") c3St2 c3Line3).current.map (fun e => e.task_url)) =
      some (some (lit "http://x")) := by decide

def c4Line3 : PyStr := lit "Task URL: ==== Logging ended"

/-- C4: counterexample — in the OPEN, in-traceback state a line containing
the end marker together with `Task URL:` is not swallowed into the trace
buffer: the buffer is unchanged and `task_url` is overwritten. -/
theorem C4_counterexample :
    c3St2.in_traceback = true ∧
    pyIn endedMarker c4Line3 = true ∧
    (scanStep (lit "t.log") c3St2 c4Line3).error_trace = c3St2.error_trace ∧
    (scanStep (lit "t.log") c3St2 c4Line3).in_traceback = true := by decide

def c8Log : LogEntry :=
  { file_id := lit "f1", service := lit "svc", task_url := none,
    steps := [lit "a Valid", lit "cookies b"], status := lit "failed",
    error_message := some (lit "E1"), error_details := none }

/-- A qualifying failed entry whose error_message is the empty string, which
is non-null but falsy in Python. -/
def c8EmptyLog : LogEntry :=
  { file_id := lit "f2", service := lit "svc", task_url := none,
    steps := [lit "session lost"], status := lit "failed",
    error_message := some [], error_details := none }

/-- C8: counterexample — two divergences from the claim. First, the auth rule
matches the indicator `Valid cookies` across the space that `' '.join`
inserts between two steps, so a pattern is emitted although no single step
contains any indicator. Second, a qualifying entry whose non-null
error_message is the empty string is dropped by the truthiness filter
`if f['error_message']`, so the emitted error_messages set is empty instead
of holding that distinct non-null message exactly once. -/
theorem C8_counterexample :
    ((detect_auth_failures (detectorLogData [c8Log])).length = 1 ∧
     c8Log.steps.all (fun s => authIndicators.all (fun ind => !(pyIn ind s))) = true) ∧
    ((detect_auth_failures (detectorLogData [c8EmptyLog])).map
        (fun p => (p.frequency, p.error_messages)) = [(1, [])] ∧
     c8EmptyLog.error_message = some []) := by decide

/-!
General theorems. Helper lemmas first.
-/

/-- A non-empty needle is only contained in a non-empty haystack. -/
theorem pyIn_haystack_ne_nil {n h : PyStr} (hn : n.isEmpty = false)
    (hin : pyIn n h = true) : h.isEmpty = false := by
  cases h with
  | nil =>
      have hx : n.isEmpty = true := by simpa [pyIn] using hin
      rw [hx] at hn
      exact Bool.noConfusion hn
  | cons c rest => simp [List.isEmpty]

/-- C9: `parse_har_files` persists its accumulated output only when it is
non-empty; an empty result leaves the prior store untouched, a non-empty
result overwrites the store with exactly the returned list. -/
theorem C9_persist_only_nonempty (files : List HarFile) (prior : HarStore) :
    ((parse_har_files files prior).1 = [] → (parse_har_files files prior).2 = prior) ∧
    ((parse_har_files files prior).1 ≠ [] →
      (parse_har_files files prior).2 = { content := some ((parse_har_files files prior).1) }) := by
  cases hr : harResults files with
  | nil =>
      constructor
      · intro _
        simp [parse_har_files, hr]
      · intro h
        exact absurd (by simp [parse_har_files, hr]) h
  | cons a l =>
      constructor
      · intro h
        rw [show (parse_har_files files prior).1 = harResults files from rfl, hr] at h
        exact absurd h (by simp)
      · intro _
        simp [parse_har_files, hr]

/-- A HAR file whose single entry yields one HarEntry. -/
def c9GoodFile : HarFile :=
  { filename := lit "ok.har",
    parsed := some [{ request := some { url := some (lit "https://x/a"), method := some (lit "GET"), headers := [] }
                      response := some { status := some 200, statusText := none, redirectURL := none, bodySize := some 1 }
                      timings := some { total := none } }] }

/-- A prior store with content, used to observe that it is preserved. -/
def c9Prior : HarStore :=
  { content := some [{ file_id := lit "old", url := [], method := [], status_code := none,
                       response_time := none, response_size := 0, request_headers := [],
                       error_message := none }] }

/-- Witness for C9: a batch of one malformed file produces an empty result
and leaves the prior store untouched; a batch with one good entry overwrites
the store with the returned list. -/
theorem C9_persist_only_nonempty_witness :
    ((parse_har_files [{ filename := lit "bad.har", parsed := none }] c9Prior).2 = c9Prior) ∧
    ((parse_har_files [c9GoodFile] { content := none }).2 =
      { content := some ((parse_har_files [c9GoodFile] { content := none }).1) }) :=
  ⟨(C9_persist_only_nonempty [{ filename := lit "bad.har", parsed := none }] c9Prior).1 (by decide),
   (C9_persist_only_nonempty [c9GoodFile] { content := none }).2 (by decide)⟩

/-- C7: a HarEntry whose `file_id` is not among the failed log file ids
contributes nothing to the detector summary — removing it from anywhere in
the HAR list leaves `generate_summary` unchanged. -/
theorem C7_detector_ignores_unmatched_har (xs ys : List HarEntry) (h : HarEntry)
    (logs : List LogEntry)
    (hnot : ((detectorLogData logs).any (fun l => l.file_id = h.file_id)) = false) :
    generate_summary (xs ++ h :: ys) logs = generate_summary (xs ++ ys) logs := by
  have hhar : detectorHarData (xs ++ h :: ys) logs = detectorHarData (xs ++ ys) logs := by
    simp only [detectorHarData, List.filter_append, List.filter_cons, hnot]
    simp
  simp only [generate_summary, detect_failure_patterns, hhar]

/-- A failed log entry for file id `g1`. -/
def c7Log : LogEntry :=
  { file_id := lit "g1", service := lit "svc", task_url := none,
    steps := [lit "step"], status := lit "failed",
    error_message := some (lit "Exception: x"), error_details := none }

/-- Witness for C7: a HarEntry for file id `f1` (status 200), absent from the failed
set `{g1}`, leaves the summary unchanged. -/
theorem C7_detector_ignores_unmatched_har_witness :
    generate_summary ([] ++ c1HarEntry :: []) [c7Log] = generate_summary ([] ++ []) [c7Log] :=
  C7_detector_ignores_unmatched_har [] [] c1HarEntry [c7Log] (by decide)

/-- C2 (amended): in the OPEN, not-in-traceback state, a line containing the
end marker — and none of the start, `Task URL:` or `Traceback` markers — is
finalized only when it starts with `====`; otherwise it is appended to
`steps` and the entry stays open. -/
theorem C2_end_marker_amended (filename : PyStr) (st : ScanState) (cur : LogEntry) (line : PyStr)
    (hcur : st.current = some cur) (hnt : st.in_traceback = false)
    (hstrip : pyStrip line = line)
    (hend : pyIn endedMarker line = true)
    (h1 : pyIn startedMarker line = false)
    (h2 : pyIn taskUrlMarker line = false)
    (h3 : pyIn tracebackMarker line = false) :
    (pyStartsWith eqMarker line = true →
      scanStep filename st line =
        { st with results := st.results ++ [cur], current := none }) ∧
    (pyStartsWith eqMarker line = false →
      scanStep filename st line =
        { st with current := some { cur with steps := cur.steps ++ [line] } }) := by
  have hempty : line.isEmpty = false := pyIn_haystack_ne_nil (by decide) hend
  constructor <;> intro hsw <;>
    simp [scanStep, hstrip, h1, hcur, h2, h3, hnt, hempty, hsw, hend]

/-- Witness for the amended C2: with the plain end-marker line the entry of
`c2St1` is finalized. -/
theorem C2_end_marker_amended_witness :
    scanStep (lit "t.log") c2St1 (lit "==== Logging ended ====") =
      { c2St1 with
        results := c2St1.results ++ [mkStartEntry (lit "t.log") c2Line1], current := none } :=
  (C2_end_marker_amended (lit "t.log") c2St1 (mkStartEntry (lit "t.log") c2Line1)
    (lit "==== Logging ended ====") (by decide) (by decide) (by decide) (by decide)
    (by decide) (by decide) (by decide)).1 (by decide)

/-- C3 (amended): in the OPEN, in-traceback state, a line carrying none of
the start, `Task URL:` and `Traceback` markers is appended to the trace
buffer; a `Task URL:` line sets `task_url` and leaves the buffer unchanged; a
`Traceback` line resets the buffer to just that line. -/
theorem C3_traceback_capture_amended (filename : PyStr) (st : ScanState) (cur : LogEntry)
    (line : PyStr)
    (hcur : st.current = some cur) (hit : st.in_traceback = true)
    (hstrip : pyStrip line = line)
    (h1 : pyIn startedMarker line = false) :
    (pyIn taskUrlMarker line = true →
      scanStep filename st line =
        { st with current := some { cur with
            task_url := some (pyStrip (pyReplace taskUrlMarker [] line)) } }) ∧
    (pyIn taskUrlMarker line = false → pyIn tracebackMarker line = true →
      scanStep filename st line = { st with in_traceback := true, error_trace := [line] }) ∧
    (pyIn taskUrlMarker line = false → pyIn tracebackMarker line = false →
      (scanStep filename st line).error_trace = st.error_trace ++ [line]) := by
  refine ⟨fun h2 => ?_, fun h2 h3 => ?_, fun h2 h3 => ?_⟩
  · simp [scanStep, hstrip, h1, hcur, h2]
  · simp [scanStep, hstrip, h1, hcur, h2, h3]
  · cases hexc : (pyStartsWith excPrefix1 line || pyStartsWith excPrefix2 line) <;>
      simp [scanStep, hstrip, h1, hcur, h2, h3, hit, hexc]

/-- Witness for the amended C3: an ordinary line while in-traceback lands in
the trace buffer of `c3St2`. -/
theorem C3_traceback_capture_amended_witness :
    (scanStep (lit "t.log") c3St2 (lit "boom happened")).error_trace =
      c3St2.error_trace ++ [lit "boom happened"] :=
  ((C3_traceback_capture_amended (lit "t.log") c3St2 (mkStartEntry (lit "t.log") c2Line1)
    (lit "boom happened") (by decide) (by decide) (by decide) (by decide)).2.2)
    (by decide) (by decide)

/-- C4 (amended): in the OPEN, in-traceback state an end-marker line never
finalizes the entry; it is swallowed into the trace buffer provided it
carries none of the start, `Task URL:` and `Traceback` markers; and the
scanner leaves the in-traceback state only on a line starting with
`commons.exceptions` or `Exception`. -/
theorem C4_end_marker_swallowed_amended (filename : PyStr) (st : ScanState) (cur : LogEntry)
    (line : PyStr)
    (hcur : st.current = some cur) (hit : st.in_traceback = true)
    (hstrip : pyStrip line = line)
    (hend : pyIn endedMarker line = true) :
    ((scanStep filename st line).results = st.results) ∧
    (pyIn startedMarker line = false → pyIn taskUrlMarker line = false →
      pyIn tracebackMarker line = false →
      (scanStep filename st line).error_trace = st.error_trace ++ [line]) ∧
    ((scanStep filename st line).in_traceback = false →
      pyStartsWith excPrefix1 line = true ∨ pyStartsWith excPrefix2 line = true) := by
  refine ⟨?_, fun h1 h2 h3 => ?_, ?_⟩
  · cases hb1 : pyIn startedMarker line <;>
    cases hb2 : pyIn taskUrlMarker line <;>
    cases hb3 : pyIn tracebackMarker line <;>
    cases hexc : (pyStartsWith excPrefix1 line || pyStartsWith excPrefix2 line) <;>
      simp [scanStep, hstrip, hcur, hit, hb1, hb2, hb3, hexc]
  · cases hexc : (pyStartsWith excPrefix1 line || pyStartsWith excPrefix2 line) <;>
      simp [scanStep, hstrip, h1, hcur, h2, h3, hit, hexc]
  · intro hfin
    cases hp1 : pyStartsWith excPrefix1 line with
    | true => exact Or.inl rfl
    | false =>
        cases hp2 : pyStartsWith excPrefix2 line with
        | true => exact Or.inr rfl
        | false =>
            exfalso
            cases hb1 : pyIn startedMarker line <;>
            cases hb2 : pyIn taskUrlMarker line <;>
            cases hb3 : pyIn tracebackMarker line <;>
              simp [scanStep, hstrip, hcur, hit, hb1, hb2, hb3, hp1, hp2] at hfin

/-- Witness for the amended C4: the plain end-marker line is swallowed into
the buffer of `c3St2` and the results stay unchanged. -/
theorem C4_end_marker_swallowed_amended_witness :
    (scanStep (lit "t.log") c3St2 (lit "==== Logging ended ====")).results = c3St2.results ∧
    (scanStep (lit "t.log") c3St2 (lit "==== Logging ended ====")).error_trace =
      c3St2.error_trace ++ [lit "==== Logging ended ===="] :=
  ⟨(C4_end_marker_swallowed_amended (lit "t.log") c3St2 (mkStartEntry (lit "t.log") c2Line1)
      (lit "==== Logging ended ====") (by decide) (by decide) (by decide) (by decide)).1,
   (C4_end_marker_swallowed_amended (lit "t.log") c3St2 (mkStartEntry (lit "t.log") c2Line1)
      (lit "==== Logging ended ====") (by decide) (by decide) (by decide) (by decide)).2.1
      (by decide) (by decide) (by decide)⟩

/-- C10: a start-marker line always opens a fresh entry even when one is
already open — the open entry is dropped from the state without being
appended to the output, and the in-traceback flag and trace buffer survive
the transition, so that when the discarded entry was mid-traceback the new
entry's subsequent ordinary lines are appended to the stale trace buffer
while its `steps` stay empty. -/
theorem C10_restart_discards_open_entry (filename : PyStr) (st : ScanState) (cur : LogEntry)
    (line line2 : PyStr)
    (hcur : st.current = some cur)
    (hstrip : pyStrip line = line)
    (hstart : pyIn startedMarker line = true) :
    (scanStep filename st line).results = st.results ∧
    (scanStep filename st line).current = some (mkStartEntry filename line) ∧
    (scanStep filename st line).in_traceback = st.in_traceback ∧
    (scanStep filename st line).error_trace = st.error_trace ∧
    (st.in_traceback = true →
      pyStrip line2 = line2 →
      pyIn startedMarker line2 = false →
      pyIn taskUrlMarker line2 = false →
      pyIn tracebackMarker line2 = false →
      (scanStep filename (scanStep filename st line) line2).error_trace =
        st.error_trace ++ [line2] ∧
      ((scanStep filename (scanStep filename st line) line2).current.map
        (fun e => e.steps)) = some []) := by
  refine ⟨?_, ?_, ?_, ?_, fun hit hstrip2 hb1 hb2 hb3 => ?_⟩
  · simp [scanStep, hstrip, hstart]
  · simp [scanStep, hstrip, hstart]
  · simp [scanStep, hstrip, hstart]
  · simp [scanStep, hstrip, hstart]
  · cases hexc : (pyStartsWith excPrefix1 line2 || pyStartsWith excPrefix2 line2) <;>
      simp [scanStep, hstrip, hstart, hstrip2, hb1, hb2, hb3, hit, hexc, mkStartEntry]

/-- Witness for C10: restarting inside `c3St2` (open entry, mid-traceback)
keeps the results and routes the next ordinary line into the stale buffer. -/
theorem C10_restart_discards_open_entry_witness :
    (scanStep (lit "t.log") c3St2 c2Line1).results = c3St2.results ∧
    (scanStep (lit "t.log") (scanStep (lit "t.log") c3St2 c2Line1) (lit "late step")).error_trace =
      c3St2.error_trace ++ [lit "late step"] :=
  ⟨(C10_restart_discards_open_entry (lit "t.log") c3St2 (mkStartEntry (lit "t.log") c2Line1)
      c2Line1 (lit "late step") (by decide) (by decide) (by decide)).1,
   ((C10_restart_discards_open_entry (lit "t.log") c3St2 (mkStartEntry (lit "t.log") c2Line1)
      c2Line1 (lit "late step") (by decide) (by decide) (by decide)).2.2.2.2
      (by decide) (by decide) (by decide) (by decide) (by decide)).1⟩

/-- Membership in a dict after an insert: the pair is the inserted one or was
already present. -/
theorem mem_dictInsert {k v nm w : PyStr} {d : List (PyStr × PyStr)}
    (h : (nm, w) ∈ dictInsert k v d) : (nm = k ∧ w = v) ∨ (nm, w) ∈ d := by
  induction d with
  | nil =>
      left
      simpa [dictInsert, Prod.ext_iff] using h
  | cons p rest ih =>
      obtain ⟨k', v'⟩ := p
      simp only [dictInsert] at h
      by_cases hk : k = k'
      · rw [if_pos hk] at h
        rcases List.mem_cons.mp h with h1 | h2
        · left
          obtain ⟨ha, hb⟩ := Prod.mk.injEq .. ▸ h1
          exact ⟨by rw [ha, hk], by rw [hb]⟩
        · right
          exact List.mem_cons_of_mem _ h2
      · rw [if_neg hk] at h
        rcases List.mem_cons.mp h with h1 | h2
        · right
          exact h1 ▸ List.mem_cons_self _ _
        · rcases ih h2 with h3 | h4
          · exact Or.inl h3
          · exact Or.inr (List.mem_cons_of_mem _ h4)

/-- Membership in the header dict built by the fold of `buildHeaders`: the
pair came from the accumulator or from a sanitized source header. -/
theorem mem_buildHeadersFold {hs : List RawHeader} {acc : List (PyStr × PyStr)} {nm w : PyStr}
    (h : (nm, w) ∈ hs.foldl
      (fun d hh => dictInsert hh.name (sanitize_header_value hh.name hh.value) d) acc) :
    (nm, w) ∈ acc ∨ ∃ hh ∈ hs, nm = hh.name ∧ w = sanitize_header_value hh.name hh.value := by
  induction hs generalizing acc with
  | nil => exact Or.inl h
  | cons hh rest ih =>
      simp only [List.foldl_cons] at h
      rcases ih h with hacc | ⟨hh', hmem, he⟩
      · rcases mem_dictInsert hacc with ⟨h1, h2⟩ | h3
        · exact Or.inr ⟨hh, List.mem_cons_self _ _, h1, h2⟩
        · exact Or.inl h3
      · exact Or.inr ⟨hh', List.mem_cons_of_mem _ hmem, he⟩

/-- Membership in `harResults`: every produced entry comes from a parseable
file and a well-formed raw entry of that file. -/
theorem mem_harResults {files : List HarFile} {e : HarEntry}
    (h : e ∈ harResults files) :
    ∃ f ∈ files, ∃ entries, f.parsed = some entries ∧
      ∃ re ∈ entries,
        processHarEntry ((pySplit (lit ".") f.filename).headD []) re = some e := by
  have aux : ∀ (fs : List HarFile) (acc : List HarEntry),
      e ∈ fs.foldl (fun acc f =>
        match f.parsed with
        | none => acc
        | some entries =>
            acc ++ entries.filterMap
              (processHarEntry ((pySplit (lit ".") f.filename).headD []))) acc →
      e ∈ acc ∨ ∃ f ∈ fs, ∃ entries, f.parsed = some entries ∧
        ∃ re ∈ entries,
          processHarEntry ((pySplit (lit ".") f.filename).headD []) re = some e := by
    intro fs
    induction fs with
    | nil => exact fun acc h => Or.inl h
    | cons f rest ih =>
        intro acc h
        simp only [List.foldl_cons] at h
        rcases ih _ h with hacc | ⟨f', hf', entries, hp, re, hre, hpe⟩
        · cases hpf : f.parsed with
          | none =>
              rw [hpf] at hacc
              exact Or.inl hacc
          | some entries =>
              rw [hpf] at hacc
              rcases List.mem_append.mp hacc with h1 | h2
              · exact Or.inl h1
              · obtain ⟨re, hre, hpe⟩ := List.mem_filterMap.mp h2
                exact Or.inr ⟨f, List.mem_cons_self _ _, entries, hpf, re, hre, hpe⟩
        · exact Or.inr ⟨f', List.mem_cons_of_mem _ hf', entries, hp, re, hre, hpe⟩
  rcases aux files [] h with hacc | hfound
  · cases hacc
  · exact hfound

/-- C6: in every HarEntry produced by `parse_har_files`, a header whose name
matches the sensitive set case-insensitively has the redaction marker as
value, and every other header's value is a source header value passed through
unchanged. -/
theorem C6_header_redaction (files : List HarFile) (prior : HarStore) (e : HarEntry)
    (he : e ∈ (parse_har_files files prior).1) (nm w : PyStr)
    (hmem : (nm, w) ∈ e.request_headers) :
    (sensitive_headers.contains (pyLower nm) = true → w = lit "[REDACTED]") ∧
    (sensitive_headers.contains (pyLower nm) = false →
      ∃ f ∈ files, ∃ entries, f.parsed = some entries ∧ ∃ re ∈ entries, ∃ req,
        re.request = some req ∧ ∃ hh ∈ req.headers, hh.name = nm ∧ hh.value = w) := by
  obtain ⟨f, hf, entries, hp, re, hre, hpe⟩ := mem_harResults he
  cases hreq : re.request with
  | none => rw [processHarEntry, hreq] at hpe; cases re.response <;> cases re.timings <;> cases hpe
  | some req =>
      cases hresp : re.response with
      | none => rw [processHarEntry, hreq, hresp] at hpe; cases re.timings <;> cases hpe
      | some resp =>
          cases htim : re.timings with
          | none => rw [processHarEntry, hreq, hresp, htim] at hpe; cases hpe
          | some tim =>
              rw [processHarEntry, hreq, hresp, htim] at hpe
              have hhdrs : e.request_headers = buildHeaders req.headers := by
                cases hpe
                rfl
              rw [hhdrs, buildHeaders] at hmem
              rcases mem_buildHeadersFold hmem with hacc | ⟨hh, hmemh, h1, h2⟩
              · cases hacc
              constructor
              · intro hsens
                rw [h2, sanitize_header_value, h1] at *
                rw [if_pos]
                rw [← h1]
                exact hsens
              · intro hsens
                have hnm : pyLower nm ∉ sensitive_headers := by simpa using hsens
                refine ⟨f, hf, entries, hp, re, hre, req, hreq, hh, hmemh, h1.symm, ?_⟩
                rw [h2, sanitize_header_value, if_neg]
                rw [← h1]
                simpa using hnm

/-- A HAR file carrying one sensitive and one plain request header. -/
def c6File : HarFile :=
  { filename := lit "c.har",
    parsed := some [{ request := some { url := some (lit "https://x/a"), method := some (lit "GET"),
                                        headers := [{ name := lit "Cookie", value := lit "secret" },
                                                    { name := lit "Accept", value := lit "text/html" }] }
                      response := some { status := some 200, statusText := none,
                                         redirectURL := none, bodySize := some 1 }
                      timings := some { total := none } }] }

/-- The HarEntry that `parse_har_files` produces from `c6File`. -/
def c6Entry : HarEntry :=
  { file_id := lit "c", url := lit "https://x/a", method := lit "GET",
    status_code := some 200, response_time := none, response_size := 1,
    request_headers := [(lit "Cookie", lit "[REDACTED]"), (lit "Accept", lit "text/html")],
    error_message := none }

/-- Witness for C6: the sensitive `Cookie` header of the entry produced from
`c6File` is redacted, and the plain `Accept` header keeps its source value. -/
theorem C6_header_redaction_witness :
    ((lit "[REDACTED]" : PyStr) = lit "[REDACTED]") ∧
    (∃ f ∈ [c6File], ∃ entries, f.parsed = some entries ∧ ∃ re ∈ entries, ∃ req,
      re.request = some req ∧ ∃ hh ∈ req.headers,
        hh.name = lit "Accept" ∧ hh.value = lit "text/html") :=
  ⟨(C6_header_redaction [c6File] { content := none } c6Entry (by decide)
      (lit "Cookie") (lit "[REDACTED]") (by decide)).1 (by decide),
   (C6_header_redaction [c6File] { content := none } c6Entry (by decide)
      (lit "Accept") (lit "text/html") (by decide)).2 (by decide)⟩

/-- Keeping a message through the truthiness filter means it was present and
non-empty. -/
theorem truthyMessage_eq_some {x : Option PyStr} {m : PyStr} :
    truthyMessage x = some m ↔ x = some m ∧ m.isEmpty = false := by
  cases x with
  | none => simp [truthyMessage]
  | some s =>
      cases hs : s.isEmpty with
      | true =>
          simp only [truthyMessage, hs]
          constructor
          · intro h
            simp at h
          · rintro ⟨h1, h2⟩
            obtain rfl : s = m := by injection h1
            rw [hs] at h2
            cases h2
      | false =>
          simp only [truthyMessage, hs]
          constructor
          · intro h
            obtain rfl : s = m := by simpa using h
            exact ⟨rfl, hs⟩
          · rintro ⟨h1, _⟩
            obtain rfl : s = m := by injection h1
            simp

/-- C8 (amended): the authentication rule emits exactly one
`cookie_session_failure` pattern when at least one failed LogEntry's
space-joined steps string contains an auth indicator, and none otherwise; the
emitted pattern's frequency is the number of qualifying entries, its
affected_files lists every qualifying entry's file_id without deduplication,
and its error_messages holds each distinct non-null, non-empty error_message
exactly once (null and empty-string messages are excluded by the source's
truthiness filter). -/
theorem C8_auth_rule_amended (log_data : List LogEntry) :
    ((detect_auth_failures (detectorLogData log_data)).length =
      if (auth_failures (detectorLogData log_data)).isEmpty then 0 else 1) ∧
    ∀ p ∈ detect_auth_failures (detectorLogData log_data),
      p.type = lit "cookie_session_failure" ∧
      p.severity = lit "high" ∧
      p.frequency = (auth_failures (detectorLogData log_data)).length ∧
      p.affected_files = (auth_failures (detectorLogData log_data)).map (fun l => l.file_id) ∧
      p.error_messages.Nodup ∧
      ∀ m, (m ∈ p.error_messages ↔
        (m.isEmpty = false ∧
          some m ∈ (auth_failures (detectorLogData log_data)).map (fun l => l.error_message))) := by
  cases hq : (auth_failures (detectorLogData log_data)).isEmpty with
  | true =>
      constructor
      · simp [detect_auth_failures, hq]
      · intro p hp
        rw [detect_auth_failures, hq] at hp
        cases hp
  | false =>
      constructor
      · simp [detect_auth_failures, hq]
      · intro p hp
        rw [detect_auth_failures, hq] at hp
        have hp2 : p = { type := lit "cookie_session_failure"
                         description := lit "Authentication failures due to cookie/session issues"
                         severity := lit "high"
                         frequency := (auth_failures (detectorLogData log_data)).length
                         affected_files := (auth_failures (detectorLogData log_data)).map (fun f => f.file_id)
                         error_messages := ((auth_failures (detectorLogData log_data)).filterMap
                           (fun f => truthyMessage f.error_message)).dedup
                         recommendation := lit "Review session management and cookie handling process" } := by
          simpa using hp
        subst hp2
        refine ⟨rfl, rfl, rfl, rfl, List.nodup_dedup _, fun m => ?_⟩
        rw [List.mem_dedup, List.mem_filterMap]
        constructor
        · rintro ⟨l, hl, hm⟩
          obtain ⟨hm1, hm2⟩ := truthyMessage_eq_some.mp hm
          exact ⟨hm2, List.mem_map.mpr ⟨l, hl, hm1⟩⟩
        · rintro ⟨hne, hmm⟩
          obtain ⟨l, hl, hm⟩ := List.mem_map.mp hmm
          exact ⟨l, hl, truthyMessage_eq_some.mpr ⟨hm, hne⟩⟩

/-- A failed log entry with one qualifying step. -/
def c8QLog : LogEntry :=
  { file_id := lit "f9", service := lit "svc", task_url := none,
    steps := [lit "session expired"], status := lit "failed",
    error_message := some (lit "Exception: denied"), error_details := none }

/-- The pattern the auth rule emits for `[c8QLog]`. -/
def c8Pattern : FailurePattern :=
  { type := lit "cookie_session_failure",
    description := lit "Authentication failures due to cookie/session issues",
    severity := lit "high",
    frequency := 1,
    affected_files := [lit "f9"],
    error_messages := [lit "Exception: denied"],
    recommendation := lit "Review session management and cookie handling process" }

/-- Witness for the amended C8: on one qualifying failed entry the rule emits
a pattern with frequency 1 and duplicate-free error messages. -/
theorem C8_auth_rule_amended_witness :
    c8Pattern.frequency = (auth_failures (detectorLogData [c8QLog])).length ∧
    c8Pattern.error_messages.Nodup :=
  ⟨(((C8_auth_rule_amended [c8QLog]).2 c8Pattern (by decide)).2.2.1),
   (((C8_auth_rule_amended [c8QLog]).2 c8Pattern (by decide)).2.2.2.2.1)⟩
